import Mathlib

/-!
Embedding of the Actions URI plugin core: the note-targeting resolver
(src/src/utils/parameters.ts), the periodic-note capability helper
(src/unnamed/part_001), the incoming-call pipeline (src/src/main.ts,
the `handleIncomingCall` version), and front-matter splitting
(src/src/utils/string-handling.ts).

JS strings are modelled as Lean `String` except where substring structure
matters (the consolidated notice message and note content), where `List Char`
is used. JS truthiness of an optional string value ("present and non-empty")
is `jsTruthy`.
-/

namespace ActionsURI

/-- JS truthiness of a possibly-absent string value: present and non-empty. -/
def jsTruthy : Option String → Bool
  | some s => s != ""
  | none => false

/-- Modelled from the spec: the user-facing message constants of
`constants.ts` (not under src/). The resolver signals "a targeting validation
error (\x22faulty note targeting\x22)" and a "note-not-found" message; the
periodic-note helper has a per-period-type feature-unavailable message. Only
the identity (and distinctness) of these strings matters here. -/
def STRINGS.faulty_note_targeting : String := "faulty note targeting"

/-- Modelled from the spec: the note-not-found message constant. -/
def STRINGS.note_not_found : String := "Note not found"

/-- Modelled from the spec: the per-period-type feature-unavailable message
(the source reads STRINGS[`(type)_note`].feature_not_available). -/
def STRINGS.feature_not_available (pnType : String) : String :=
  pnType ++ " note feature is not available"

/-- Modelled from the spec: numeric error codes of `results-handling.ts`
(not under src/). The spec requires the feature-unavailable failure to be
"surfaced with a distinct code from not-found". -/
def ErrorCode.NotFound : Nat := 404

/-- Modelled from the spec: the feature-unavailable error code, distinct
from the not-found code. -/
def ErrorCode.FeatureUnavailable : Nat := 412

/-- Tagged string result (`StringResultObject` of types.ts, built with
`success` / `failure` from results-handling.ts). -/
inductive StringResultObject where
  | success (result : String)
  | failure (errorCode : Nat) (errorMessage : String)
deriving DecidableEq, Repr

/-- The `isSuccess` discriminant field. -/
def StringResultObject.isSuccess : StringResultObject → Bool
  | .success _ => true
  | .failure _ _ => false

/-- The `result` field; reading it off a failure gives JS `undefined`, which
every caller in the sources replaces by the empty string
(`res.isSuccess ? res.result : ""`). -/
def StringResultObject.result : StringResultObject → String
  | .success r => r
  | .failure _ _ => ""

/-- A front-matter `uid` entry: a scalar (modelled by its JS string
coercion) or a list of scalars. -/
inductive FMUid where
  | scalar (v : String)
  | list (vs : List String)
deriving DecidableEq, Repr

/-- JS `[x].flat().map(u => ...string coercion...)`: flatten one level,
then stringify each element. This is the metadata-cache search's coercion
(parameters.ts line 149). -/
def FMUid.flatCoerce : FMUid → List String
  | .scalar v => [v]
  | .list vs => vs

/-- JS `[x].flatMap(u => ...string coercion...)`: map first, then flatten,
so the whole value is stringified as one string (a JS array stringifies as
its comma-joined elements). This is the markdown-file scan's coercion
(parameters.ts line 171). -/
def FMUid.flatMapCoerce : FMUid → List String
  | .scalar v => [v]
  | .list vs => [String.intercalate "," vs]

/-- JS truthiness of a front-matter entry value: an empty-string scalar is
falsy; every array (even an empty one) is truthy. -/
def FMUid.truthy : FMUid → Bool
  | .scalar v => v != ""
  | .list _ => true

/-- Obsidian `parseFrontMatterEntry` followed by the scan's coercion: the
entry stringified as a whole; a missing front matter or key gives `null`,
which JS stringifies as "null". -/
def parseFrontMatterEntryCoerce : Option FMUid → List String
  | some u => u.flatMapCoerce
  | none => ["null"]

/-- The slice of the Obsidian environment the resolver reads
(`obsEnv.app` in parameters.ts): the hash-keyed metadata cache (hash,
front-matter uid entry), the path-keyed file cache (path, hash), the
markdown file list with each file's front-matter uid entry as
`getFileCache(note)?.frontmatter` exposes it, the existing-note-path check
behind `zodExistingNotePath`, and the periodic-notes capability keyed by
period type. -/
structure ObsEnv where
  metadataCache : List (String × Option FMUid)
  fileCache : List (String × String)
  markdownFiles : List (String × Option FMUid)
  noteExists : String → Bool
  periodicPluginLoaded : String → Bool
  currentPeriodNotePath : String → Option String

/-- Search the hash-keyed metadata cache for an entry whose front-matter
uid value is truthy and whose one-level-flattened, stringified values
contain `uid`; then look the found hash up in the path-keyed file cache
(`findPathForUIDInMetadataCache`, parameters.ts lines 142-158). When no
cache entry matches, the hash is JS `undefined` and the file-cache lookup
finds nothing (every stored hash is a string). -/
def findPathForUIDInMetadataCache (env : ObsEnv) (uid : String) : Option String :=
  let hash := (env.metadataCache.find? (fun e =>
    match e.2 with
    | some fm => fm.truthy && fm.flatCoerce.contains uid
    | none => false)).map (fun e => e.1)
  match hash with
  | some h => (env.fileCache.find? (fun e => e.2 == h)).map (fun e => e.1)
  | none => none

/-- Linear scan of all markdown files: the first file whose
`parseFrontMatterEntry` result, stringified as a whole, contains `uid`
(`findPathForUIDInMarkdownFiles`, parameters.ts lines 160-174). -/
def findPathForUIDInMarkdownFiles (env : ObsEnv) (uid : String) : Option String :=
  (env.markdownFiles.find? (fun e =>
    (parseFrontMatterEntryCoerce e.2).contains uid)).map (fun e => e.1)

/-- JS `a || b` on possibly-absent strings: the empty string is falsy, so
it falls through to `b`. -/
def jsOrString : Option String → Option String → Option String
  | some s, b => if s = "" then b else some s
  | none, b => b

/-- Resolve a uid to a note path: metadata cache first, markdown scan as
fallback; a missing (or falsy) path is a 404 failure
(`filepathForUID`, parameters.ts lines 135-140). -/
def filepathForUID (env : ObsEnv) (uid : String) : StringResultObject :=
  match jsOrString (findPathForUIDInMetadataCache env uid)
      (findPathForUIDInMarkdownFiles env uid) with
  | some p => if p = "" then .failure 404 STRINGS.note_not_found else .success p
  | none => .failure 404 STRINGS.note_not_found

/-- Periodic-note capability check
(`getExistingPeriodNotePathIfPluginIsAvailable`, the periodic-notes
handling file): a feature-unavailable failure when the plugin for the
period type is not loaded; otherwise the current period note's path, or a
not-found failure when there is none. -/
def getExistingPeriodNotePathIfPluginIsAvailable (env : ObsEnv)
    (pnType : String) : StringResultObject :=
  if !env.periodicPluginLoaded pnType then
    .failure ErrorCode.FeatureUnavailable (STRINGS.feature_not_available pnType)
  else
    match env.currentPeriodNotePath pnType with
    | some p => .success p
    | none => .failure ErrorCode.NotFound STRINGS.note_not_found

/-- The targeting fields of an incoming parameter object
(`NoteTargetingParams`). `none` means the key is absent; `some ""` means
the key is present with an empty value. `periodicNote` stands for the
"periodic-note" key, whose value is the period-type string. -/
structure NoteTargetingParams where
  file : Option String
  uid : Option String
  periodicNote : Option String
deriving DecidableEq, Repr

/-- The `_computed` record added on successful targeting validation
(`NoteTargetingComputedValues`). -/
structure NoteTargetingComputedValues where
  inputKey : String
  path : String
  pathExists : Bool
deriving DecidableEq, Repr

/-- Outcome of `validateNoteTargetingAndResolvePath`: either a Zod issue
with the given message (the source adds the issue and returns `z.NEVER`),
or the input augmented with the computed values. -/
inductive ResolveResult where
  | invalid (message : String)
  | valid (computed : NoteTargetingComputedValues)
deriving DecidableEq, Repr

/-- The key-presence count of parameters.ts lines 87-89: JS `key in input`
tests presence of the key, whatever its value. -/
def presentKeysCount (input : NoteTargetingParams) : Nat :=
  (if input.file.isSome then 1 else 0) +
  (if input.uid.isSome then 1 else 0) +
  (if input.periodicNote.isSome then 1 else 0)

/-- Modelled from the spec: `zodExistingNotePath` (utils/zod.ts, not under
src/) accepts a path exactly when a note exists at it in the store
("Determine pathExists by checking the resolved path (if any) against the
actual note store"). -/
def zodExistingNotePathOk (env : ObsEnv) (path : String) : Bool :=
  env.noteExists path

/-- Core targeting validation (`validateNoteTargetingAndResolvePath`,
parameters.ts lines 79-133): reject unless exactly one targeting key is
present; branch on the first truthy key to resolve the path, replacing a
failed lookup by the empty string; compute `pathExists`; in hard mode
(`throwOnMissingNote`) a missing note is a validation error. -/
def validateNoteTargetingAndResolvePath (env : ObsEnv)
    (input : NoteTargetingParams) (throwOnMissingNote : Bool) : ResolveResult :=
  if presentKeysCount input ≠ 1 then
    .invalid STRINGS.faulty_note_targeting
  else
    let ikp : String × String :=
      if jsTruthy input.file then
        ("file", input.file.getD "")
      else if jsTruthy input.uid then
        ("uid", (filepathForUID env (input.uid.getD "")).result)
      else if jsTruthy input.periodicNote then
        ("periodic-note",
          (getExistingPeriodNotePathIfPluginIsAvailable env
            (input.periodicNote.getD "")).result)
      else ("", "")
    let pathExists := ikp.2 != "" && zodExistingNotePathOk env ikp.2
    if !pathExists && throwOnMissingNote then
      .invalid STRINGS.note_not_found
    else
      .valid ⟨ikp.1, ikp.2, pathExists⟩

/-- Soft-mode wrapper (`softValidateNoteTargetingAndResolvePath`). -/
def softValidateNoteTargetingAndResolvePath (env : ObsEnv)
    (input : NoteTargetingParams) : ResolveResult :=
  validateNoteTargetingAndResolvePath env input false

/-- Hard-mode wrapper (`hardValidateNoteTargetingAndResolvePath`). -/
def hardValidateNoteTargetingAndResolvePath (env : ObsEnv)
    (input : NoteTargetingParams) : ResolveResult :=
  validateNoteTargetingAndResolvePath env input true

/-- Spec-side count for C1, following the spec's words: "Count which of
{file, uid, periodic-note} are present and non-empty in the input." -/
def specNonEmptyKeysCount (input : NoteTargetingParams) : Nat :=
  (if jsTruthy input.file then 1 else 0) +
  (if jsTruthy input.uid then 1 else 0) +
  (if jsTruthy input.periodicNote then 1 else 0)

/-- Spec-side uid match for C4, following the spec's words: "a `uid` field
(scalar or list) matching the given value, case-sensitive exact string
match after coercion to string" — each value coerced to a string
individually. -/
def specUidMatches : Option FMUid → String → Bool
  | some (.scalar v), uid => v == uid
  | some (.list vs), uid => vs.contains uid
  | none, _ => false

/-- An environment with an empty vault, empty caches and no periodic-note
plugin loaded. -/
def emptyEnv : ObsEnv :=
  ⟨[], [], [], fun _ => false, fun _ => false, fun _ => none⟩

/-- The parameters of an incoming call that the pipeline itself reads
(`AnyParams` in main.ts): the callback URLs and the silent flag; `none`
means the key is absent. -/
structure AnyParams where
  xSuccess : Option String
  xError : Option String
  silent : Option String
deriving DecidableEq, Repr

/-- A route handler's tagged result (`AnyHandlerResult`): a success
carrying an optional processed-file path and a flat payload, or a failure
carrying a numeric error code and a message. -/
inductive AnyHandlerResult where
  | success (processedFilepath : Option String) (payload : List (String × String))
  | failure (errorCode : Nat) (errorMessage : String)
deriving DecidableEq, Repr

/-- The `isSuccess` discriminant of a handler result. -/
def AnyHandlerResult.isSuccess : AnyHandlerResult → Bool
  | .success _ _ => true
  | .failure _ _ => false

/-- The `processedFilepath` field; reading it off a failure gives JS
`undefined`. -/
def AnyHandlerResult.processedFilepath : AnyHandlerResult → Option String
  | .success p _ => p
  | .failure _ _ => none

/-- One outbound callback invocation: the target URL plus the appended
query parameters. -/
structure NetworkCall where
  url : String
  appendedParams : List (String × String)
deriving DecidableEq, Repr

/-- An observable effect of one pipeline run. -/
inductive PipelineEvent where
  | handlerRun
  | networkCall (call : NetworkCall)
  | uiOpenNote (path : String)
deriving DecidableEq, Repr

/-- Modelled from the spec: `sendUrlCallback` (utils/callbacks.ts, not
under src/) invokes the callback URL "with the original caller-supplied
template plus appended parameters: on success, a flattened representation
of the success payload; on failure, an error-code field and a message
field"; fire-and-forget, the send outcome captured in a StringResult. The
pair's second component is the network call made. -/
def sendUrlCallback (url : String) (handlerRes : AnyHandlerResult)
    (_params : AnyParams) : StringResultObject × NetworkCall :=
  match handlerRes with
  | .success _ payload => (.success "Callback sent", ⟨url, payload⟩)
  | .failure code msg =>
      (.success "Callback sent",
        ⟨url, [("error-code", toString code), ("error-message", msg)]⟩)

/-- Decide whether to invoke an outbound callback
(`sendUrlCallbackIfNeeded`, main.ts lines 257-284): a success with a
truthy x-success sends to it; a failure with a truthy x-error sends to it;
otherwise an informational success result and no network call. The second
component lists the pipeline events (network calls) of this step. -/
def sendUrlCallbackIfNeeded (handlerRes : AnyHandlerResult)
    (params : AnyParams) : StringResultObject × List PipelineEvent :=
  if handlerRes.isSuccess then
    if jsTruthy params.xSuccess then
      let rc := sendUrlCallback (params.xSuccess.getD "") handlerRes params
      (rc.1, [.networkCall rc.2])
    else
      (.success "No x-success callback URL provided", [])
  else
    if jsTruthy params.xError then
      let rc := sendUrlCallback (params.xError.getD "") handlerRes params
      (rc.1, [.networkCall rc.2])
    else
      (.success "No x-error callback URL provided", [])

/-- Modelled from the spec: `focusOrOpenNote` (utils/ui.ts, not under
src/), the UI collaborator "focusOrOpenNote(path) -> StringResult": brings
the note into focus, opening it if not already open. The second component
lists the UI event. -/
def focusOrOpenNote (path : String) : StringResultObject × List PipelineEvent :=
  (.success ("Opened note " ++ path), [.uiOpenNote path])

/-- Decide whether to open the processed note in the UI
(`openFileIfNeeded`, main.ts lines 286-316): return an explanatory
success result and do nothing when the handler failed, when silent is
truthy, or when the success carries no truthy processedFilepath; otherwise
delegate to `focusOrOpenNote`. -/
def openFileIfNeeded (handlerResult : AnyHandlerResult)
    (params : AnyParams) : StringResultObject × List PipelineEvent :=
  if !handlerResult.isSuccess then
    (.success "No file to open, the handler failed", [])
  else if jsTruthy params.silent then
    (.success "No file to open, the silent parameter was set", [])
  else if !jsTruthy handlerResult.processedFilepath then
    (.success "No file to open, handler did not return a processedFilepath property", [])
  else
    focusOrOpenNote (handlerResult.processedFilepath.getD "")

/-- The aggregate diagnostic record (`ProcessingResult` of types.ts). -/
structure ProcessingResult where
  params : AnyParams
  handlerResult : AnyHandlerResult
  sendCallbackResult : StringResultObject
  openResult : StringResultObject
deriving DecidableEq, Repr

/-- Run a validated call (`handleIncomingCall`, main.ts lines 200-219):
await the handler, then the callback step, then the open-note step, and
assemble the diagnostic record. The second component is the ordered trace
of observable effects; the source's awaits sequence the three steps in
exactly this order. -/
def handleIncomingCall (handlerFunc : AnyParams → AnyHandlerResult)
    (params : AnyParams) : ProcessingResult × List PipelineEvent :=
  let handlerResult := handlerFunc params
  let sendStep := sendUrlCallbackIfNeeded handlerResult params
  let openStep := openFileIfNeeded handlerResult params
  (⟨params, handlerResult, sendStep.1, openStep.1⟩,
    PipelineEvent.handlerRun :: (sendStep.2 ++ openStep.2))

/-- JS `Array.prototype.join(sep)`. -/
def jsJoin (sep : String) : List String → String
  | [] => ""
  | [s] => s
  | s :: rest => s ++ sep ++ jsJoin sep rest

/-- One Zod field error: its path segments and its message
(the elements of `parseError.errors`). -/
structure ZodIssue where
  path : List String
  message : String
deriving DecidableEq, Repr

/-- The line a field error contributes to the consolidated notice:
JS template `- (path joined by .): (message)`. -/
def zodIssueLine (e : ZodIssue) : String :=
  "- " ++ jsJoin "." e.path ++ ": " ++ e.message

/-- The consolidated parse-failure message (`handleParseError`, main.ts
lines 231-240): the header line followed by one line per field error,
joined by newlines, shown as a notice and logged. -/
def handleParseErrorMessage (errors : List ZodIssue) : String :=
  jsJoin "\n" ("Incoming call failed" :: errors.map zodIssueLine)

/-- What one registered route does with an incoming call
(`registerRoutes`, main.ts lines 173-181): parse success runs the
pipeline, parse failure shows the consolidated notice — no handler run,
no pipeline events. -/
inductive CallOutcome where
  | handled (res : ProcessingResult) (events : List PipelineEvent)
  | parseFailed (notice : String)
deriving DecidableEq, Repr

/-- The per-call closure registered for a route: branch on the schema
parse result (`res.success ? await handleIncomingCall ... :
handleParseError ...`). -/
def processIncomingCall (handlerFunc : AnyParams → AnyHandlerResult)
    (parsed : Except (List ZodIssue) AnyParams) : CallOutcome :=
  match parsed with
  | .ok params =>
      let r := handleIncomingCall handlerFunc params
      .handled r.1 r.2
  | .error errors => .parseFailed (handleParseErrorMessage errors)

/-- The front-matter boundary marker (string-handling.ts line 5). -/
def FRONT_MATTER_BOUNDARY : List Char := "---\n".data

/-- JS `s.indexOf(pat, start)` on the character list model: the least
position at or after `start` where `pat` occurs, if any. -/
def jsIndexOfFrom (s pat : List Char) (start : Nat) : Option Nat :=
  (List.range (s.length + 1)).find? (fun i =>
    decide (start ≤ i) && pat.isPrefixOf (s.drop i))

/-- Front-matter test (`containsFrontMatter`, string-handling.ts lines
71-74): the content starts with the boundary and the boundary occurs again
at or after position 4. -/
def containsFrontMatter (s : List Char) : Bool :=
  FRONT_MATTER_BOUNDARY.isPrefixOf s &&
    (jsIndexOfFrom s FRONT_MATTER_BOUNDARY 4).isSome

/-- Front-matter split (`extractNoteContentParts`, string-handling.ts
lines 87-101): slice at the position right after the closing boundary
when front matter is present, else an empty front matter and the whole
content as the body. When the second boundary is missing, JS computes
bodyStartPos = -1 + 4 = 3, unused in the branch taken. -/
def extractNoteContentParts (s : List Char) : List Char × List Char :=
  let bodyStartPos : Nat :=
    match jsIndexOfFrom s FRONT_MATTER_BOUNDARY 4 with
    | some i => i + 4
    | none => 3
  if containsFrontMatter s then
    (s.take bodyStartPos, s.drop bodyStartPos)
  else
    ([], s)

/-- The vault of the C4 failing input: an empty metadata cache and a single
markdown note whose front-matter uid field is the list ["abc", "def"]. -/
def uidListEnv : ObsEnv :=
  ⟨[], [], [("notes/target.md", some (.list ["abc", "def"]))],
    fun _ => false, fun _ => false, fun _ => none⟩

/-- The same note indexed in the metadata cache instead (hash "h1"): the
cache-side list handling that the fallback scan was meant to mirror. -/
def uidListEnvCached : ObsEnv :=
  ⟨[("h1", some (.list ["abc", "def"]))], [("notes/target.md", "h1")], [],
    fun _ => false, fun _ => false, fun _ => none⟩

/-- C1 (counterexample). The spec counts targeting keys that are "present
and non-empty" and predicts that an input with one empty-valued key and one
non-empty key counts as exactly one and passes; the code counts present
keys (JS `key in input`), so the input with file present-but-empty and uid
present non-empty is rejected with the faulty-note-targeting error in both
modes even though its non-empty count is 1. -/
theorem targeting_nonempty_count_spec_counterexample :
    specNonEmptyKeysCount ⟨some "", some "x", none⟩ = 1 ∧
    softValidateNoteTargetingAndResolvePath emptyEnv ⟨some "", some "x", none⟩ =
      ResolveResult.invalid STRINGS.faulty_note_targeting ∧
    hardValidateNoteTargetingAndResolvePath emptyEnv ⟨some "", some "x", none⟩ =
      ResolveResult.invalid STRINGS.faulty_note_targeting := by
  refine ⟨rfl, ?_, ?_⟩ <;> rfl

/-- C1 (amended). Resolution fails with the targeting validation error
("faulty note targeting") if and only if the number of targeting keys among
{file, uid, periodic-note} that are present in the input — whatever their
values — is not exactly 1. -/
theorem targeting_error_iff_present_count_ne_one (env : ObsEnv)
    (input : NoteTargetingParams) (strict : Bool) :
    validateNoteTargetingAndResolvePath env input strict =
        ResolveResult.invalid STRINGS.faulty_note_targeting ↔
      presentKeysCount input ≠ 1 := by
  constructor
  · intro hc
    by_contra h
    unfold validateNoteTargetingAndResolvePath at hc
    rw [if_neg (by simp [h])] at hc
    dsimp only at hc
    repeat' split at hc
    all_goals
      first
      | exact absurd (ResolveResult.invalid.inj hc) (by decide)
      | exact ResolveResult.noConfusion hc
  · intro h
    unfold validateNoteTargetingAndResolvePath
    rw [if_pos h]

/-- C2 (counterexample). With the daily periodic-notes capability disabled,
the periodic-note helper does return a FeatureUnavailable failure with a
code distinct from NotFound, but the resolver does not surface it: soft-mode
resolution succeeds with an empty path (pathExists = false), and hard-mode
resolution fails with the generic note-not-found message, not the
feature-unavailable one. -/
theorem periodic_disabled_feature_error_not_surfaced :
    getExistingPeriodNotePathIfPluginIsAvailable emptyEnv "daily" =
      StringResultObject.failure ErrorCode.FeatureUnavailable
        (STRINGS.feature_not_available "daily") ∧
    softValidateNoteTargetingAndResolvePath emptyEnv ⟨none, none, some "daily"⟩ =
      ResolveResult.valid ⟨"periodic-note", "", false⟩ ∧
    hardValidateNoteTargetingAndResolvePath emptyEnv ⟨none, none, some "daily"⟩ =
      ResolveResult.invalid STRINGS.note_not_found ∧
    STRINGS.note_not_found ≠ STRINGS.feature_not_available "daily" := by
  refine ⟨rfl, rfl, rfl, ?_⟩
  decide

/-- C2 (amended). For every periodic-note targeting input whose capability
reports disabled, the helper returns a FeatureUnavailable failure whose code
is distinct from the NotFound code, but the resolver discards that failure,
folding it into an empty resolved path: soft-mode resolution succeeds with
pathExists = false, and hard-mode resolution fails with the generic
note-not-found validation error. -/
theorem periodic_disabled_helper_fails_resolver_folds (env : ObsEnv)
    (pn : String) (hdis : env.periodicPluginLoaded pn = false) (hpn : pn ≠ "") :
    getExistingPeriodNotePathIfPluginIsAvailable env pn =
      StringResultObject.failure ErrorCode.FeatureUnavailable
        (STRINGS.feature_not_available pn) ∧
    ErrorCode.FeatureUnavailable ≠ ErrorCode.NotFound ∧
    softValidateNoteTargetingAndResolvePath env ⟨none, none, some pn⟩ =
      ResolveResult.valid ⟨"periodic-note", "", false⟩ ∧
    hardValidateNoteTargetingAndResolvePath env ⟨none, none, some pn⟩ =
      ResolveResult.invalid STRINGS.note_not_found := by
  have hget : getExistingPeriodNotePathIfPluginIsAvailable env pn =
      StringResultObject.failure ErrorCode.FeatureUnavailable
        (STRINGS.feature_not_available pn) := by
    simp [getExistingPeriodNotePathIfPluginIsAvailable, hdis]
  refine ⟨hget, by decide, ?_, ?_⟩ <;>
    simp [softValidateNoteTargetingAndResolvePath,
      hardValidateNoteTargetingAndResolvePath,
      validateNoteTargetingAndResolvePath, presentKeysCount, jsTruthy, hpn,
      hget, StringResultObject.result, zodExistingNotePathOk]

/-- C2 (witness): the amended statement at the concrete disabled-daily
environment. -/
theorem periodic_disabled_helper_fails_resolver_folds_witness :
    getExistingPeriodNotePathIfPluginIsAvailable emptyEnv "daily" =
      StringResultObject.failure ErrorCode.FeatureUnavailable
        (STRINGS.feature_not_available "daily") ∧
    ErrorCode.FeatureUnavailable ≠ ErrorCode.NotFound ∧
    softValidateNoteTargetingAndResolvePath emptyEnv ⟨none, none, some "daily"⟩ =
      ResolveResult.valid ⟨"periodic-note", "", false⟩ ∧
    hardValidateNoteTargetingAndResolvePath emptyEnv ⟨none, none, some "daily"⟩ =
      ResolveResult.invalid STRINGS.note_not_found :=
  periodic_disabled_helper_fails_resolver_folds emptyEnv "daily" rfl (by decide)

/-- C3. When the single targeting key is a non-empty uid matching no note
(neither the metadata cache nor the markdown scan finds a path), soft-mode
resolution succeeds with an empty resolved path and pathExists = false,
while hard-mode resolution fails with the note-not-found validation error
and adds no computed values. -/
theorem uid_no_match_soft_ok_hard_not_found (env : ObsEnv) (u : String)
    (hu : u ≠ "")
    (hc : findPathForUIDInMetadataCache env u = none)
    (hm : findPathForUIDInMarkdownFiles env u = none) :
    softValidateNoteTargetingAndResolvePath env ⟨none, some u, none⟩ =
      ResolveResult.valid ⟨"uid", "", false⟩ ∧
    hardValidateNoteTargetingAndResolvePath env ⟨none, some u, none⟩ =
      ResolveResult.invalid STRINGS.note_not_found := by
  have hf : filepathForUID env u =
      StringResultObject.failure 404 STRINGS.note_not_found := by
    simp [filepathForUID, hc, hm, jsOrString]
  constructor <;>
    simp [softValidateNoteTargetingAndResolvePath,
      hardValidateNoteTargetingAndResolvePath,
      validateNoteTargetingAndResolvePath, presentKeysCount, jsTruthy, hu,
      hf, StringResultObject.result, zodExistingNotePathOk]

/-- C3 (witness): the statement at the empty vault and uid "abc". -/
theorem uid_no_match_soft_ok_hard_not_found_witness :
    softValidateNoteTargetingAndResolvePath emptyEnv ⟨none, some "abc", none⟩ =
      ResolveResult.valid ⟨"uid", "", false⟩ ∧
    hardValidateNoteTargetingAndResolvePath emptyEnv ⟨none, some "abc", none⟩ =
      ResolveResult.invalid STRINGS.note_not_found :=
  uid_no_match_soft_ok_hard_not_found emptyEnv "abc" (by decide) rfl rfl

/-- C4 (code evaluation at the failing input). Exactly one markdown note
matches uid "abc" under the matching criterion both the spec and the
metadata-cache search use (each front-matter value coerced to a string
individually), the empty metadata cache yields no match, yet the fallback
scan also finds nothing — it coerces the whole list to the single string
"abc,def" (JS flatMap instead of flat-then-map) — so the uid resolves to a
404 failure. The same note indexed in the metadata cache resolves fine,
showing the fallback diverges from the cache search it was meant to
mirror. -/
theorem uid_list_scan_divergence :
    (uidListEnv.markdownFiles.filter (fun e => specUidMatches e.2 "abc")).map
        (fun e => e.1) = ["notes/target.md"] ∧
    findPathForUIDInMetadataCache uidListEnv "abc" = none ∧
    findPathForUIDInMarkdownFiles uidListEnv "abc" = none ∧
    filepathForUID uidListEnv "abc" =
      StringResultObject.failure 404 STRINGS.note_not_found ∧
    findPathForUIDInMarkdownFiles uidListEnv "abc,def" = some "notes/target.md" ∧
    filepathForUID uidListEnvCached "abc" =
      StringResultObject.success "notes/target.md" := by
  refine ⟨?_, rfl, ?_, ?_, ?_, ?_⟩ <;> decide

/-- C5. Callback dispatch rule: a success with x-success present sends the
success callback; a failure with x-error present sends the error callback
with the failure's code and message appended; when the relevant field is
absent no network call is made and the step returns a non-failing
informational string result. -/
theorem callback_dispatch_rule (res : AnyHandlerResult) (params : AnyParams) :
    (res.isSuccess = true → jsTruthy params.xSuccess = true →
      sendUrlCallbackIfNeeded res params =
        ((sendUrlCallback (params.xSuccess.getD "") res params).1,
          [PipelineEvent.networkCall
            (sendUrlCallback (params.xSuccess.getD "") res params).2])) ∧
    (∀ code msg, res = AnyHandlerResult.failure code msg →
      jsTruthy params.xError = true →
      sendUrlCallbackIfNeeded res params =
        ((sendUrlCallback (params.xError.getD "") res params).1,
          [PipelineEvent.networkCall
            ⟨params.xError.getD "",
              [("error-code", toString code), ("error-message", msg)]⟩])) ∧
    (res.isSuccess = true → jsTruthy params.xSuccess = false →
      sendUrlCallbackIfNeeded res params =
        (StringResultObject.success "No x-success callback URL provided", [])) ∧
    (res.isSuccess = false → jsTruthy params.xError = false →
      sendUrlCallbackIfNeeded res params =
        (StringResultObject.success "No x-error callback URL provided", [])) := by
  refine ⟨?_, ?_, ?_, ?_⟩
  · intro hs hx
    simp [sendUrlCallbackIfNeeded, hs, hx]
  · rintro code msg rfl hx
    simp [sendUrlCallbackIfNeeded, AnyHandlerResult.isSuccess, hx,
      sendUrlCallback]
  · intro hs hx
    simp [sendUrlCallbackIfNeeded, hs, hx]
  · intro hs hx
    simp [sendUrlCallbackIfNeeded, hs, hx]

/-- C6. With a success result, x-success present and a truthy silent flag,
the outbound success callback is still dispatched (silent does not suppress
it) while the open-note action is skipped with an informational success
result. -/
theorem silent_keeps_callback_skips_open (res : AnyHandlerResult)
    (params : AnyParams) (hs : res.isSuccess = true)
    (hx : jsTruthy params.xSuccess = true)
    (hsil : jsTruthy params.silent = true) :
    (sendUrlCallbackIfNeeded res params).2 =
      [PipelineEvent.networkCall
        (sendUrlCallback (params.xSuccess.getD "") res params).2] ∧
    openFileIfNeeded res params =
      (StringResultObject.success
        "No file to open, the silent parameter was set", []) := by
  constructor
  · simp [sendUrlCallbackIfNeeded, hs, hx]
  · simp [openFileIfNeeded, hs, hsil]

/-- C6 (witness): the statement at a concrete successful file result with a
callback URL and silent set. -/
theorem silent_keeps_callback_skips_open_witness :
    (sendUrlCallbackIfNeeded (AnyHandlerResult.success (some "a.md") [])
        ⟨some "cb://ok", none, some "true"⟩).2 =
      [PipelineEvent.networkCall
        (sendUrlCallback "cb://ok" (AnyHandlerResult.success (some "a.md") [])
          ⟨some "cb://ok", none, some "true"⟩).2] ∧
    openFileIfNeeded (AnyHandlerResult.success (some "a.md") [])
        ⟨some "cb://ok", none, some "true"⟩ =
      (StringResultObject.success
        "No file to open, the silent parameter was set", []) :=
  silent_keeps_callback_skips_open (AnyHandlerResult.success (some "a.md") [])
    ⟨some "cb://ok", none, some "true"⟩ rfl rfl rfl

/-- C9. The open-note step acts exactly when the handler result is a
success, silent is not truthy, and the success carries a truthy
processed-file path — in which case it opens that path; a failure never
triggers it; and each non-acting branch returns its own distinct
explanatory success-tagged string result. -/
theorem open_note_rule (res : AnyHandlerResult) (params : AnyParams) :
    ((openFileIfNeeded res params).2 ≠ [] ↔
      res.isSuccess = true ∧ jsTruthy params.silent = false ∧
        jsTruthy res.processedFilepath = true) ∧
    (res.isSuccess = true → jsTruthy params.silent = false →
      jsTruthy res.processedFilepath = true →
      (openFileIfNeeded res params).2 =
        [PipelineEvent.uiOpenNote (res.processedFilepath.getD "")]) ∧
    (res.isSuccess = false →
      openFileIfNeeded res params =
        (StringResultObject.success "No file to open, the handler failed", [])) ∧
    (res.isSuccess = true → jsTruthy params.silent = true →
      openFileIfNeeded res params =
        (StringResultObject.success
          "No file to open, the silent parameter was set", [])) ∧
    (res.isSuccess = true → jsTruthy params.silent = false →
      jsTruthy res.processedFilepath = false →
      openFileIfNeeded res params =
        (StringResultObject.success
          "No file to open, handler did not return a processedFilepath property",
          [])) ∧
    (openFileIfNeeded res params).1.isSuccess = true := by
  refine ⟨?_, ?_, ?_, ?_, ?_, ?_⟩
  · constructor
    · intro hne
      by_cases hs : res.isSuccess = true
      · by_cases hsil : jsTruthy params.silent = true
        · exact absurd (by simp [openFileIfNeeded, hs, hsil]) hne
        · by_cases hp : jsTruthy res.processedFilepath = true
          · exact ⟨hs, by simpa using hsil, hp⟩
          · exact absurd (by simp [openFileIfNeeded, hs,
              Bool.eq_false_iff.mpr hsil, Bool.eq_false_iff.mpr hp]) hne
      · exact absurd (by simp [openFileIfNeeded, Bool.eq_false_iff.mpr hs]) hne
    · rintro ⟨hs, hsil, hp⟩
      simp [openFileIfNeeded, hs, hsil, hp, focusOrOpenNote]
  · intro hs hsil hp
    simp [openFileIfNeeded, hs, hsil, hp, focusOrOpenNote]
  · intro hs
    simp [openFileIfNeeded, hs]
  · intro hs hsil
    simp [openFileIfNeeded, hs, hsil]
  · intro hs hsil hp
    simp [openFileIfNeeded, hs, hsil, hp]
  · unfold openFileIfNeeded
    repeat' split
    all_goals simp [StringResultObject.isSuccess, focusOrOpenNote]

/-- Every event of the callback step is an outbound network call. -/
theorem sendUrlCallbackIfNeeded_events_network (res : AnyHandlerResult)
    (params : AnyParams) :
    ∀ ev ∈ (sendUrlCallbackIfNeeded res params).2,
      ∃ c, ev = PipelineEvent.networkCall c := by
  intro ev hev
  unfold sendUrlCallbackIfNeeded at hev
  repeat' split at hev
  all_goals simp_all

/-- Every event of the open-note step is a UI open action. -/
theorem openFileIfNeeded_events_ui (res : AnyHandlerResult)
    (params : AnyParams) :
    ∀ ev ∈ (openFileIfNeeded res params).2,
      ∃ p, ev = PipelineEvent.uiOpenNote p := by
  intro ev hev
  unfold openFileIfNeeded at hev
  repeat' split at hev
  all_goals simp_all [focusOrOpenNote]

/-- C8. The pipeline of a validated call is strictly ordered: the handler
runs first, then all callback network calls, then all UI open actions, and
the returned ProcessingResult aggregates the parameters, the handler
result, the callback outcome and the open outcome of exactly those
steps. -/
theorem pipeline_step_ordering (hf : AnyParams → AnyHandlerResult)
    (params : AnyParams) :
    ∃ cbEvents openEvents,
      cbEvents = (sendUrlCallbackIfNeeded (hf params) params).2 ∧
      openEvents = (openFileIfNeeded (hf params) params).2 ∧
      (handleIncomingCall hf params).2 =
        PipelineEvent.handlerRun :: (cbEvents ++ openEvents) ∧
      (∀ ev ∈ cbEvents, ∃ c, ev = PipelineEvent.networkCall c) ∧
      (∀ ev ∈ openEvents, ∃ p, ev = PipelineEvent.uiOpenNote p) ∧
      (handleIncomingCall hf params).1 =
        ⟨params, hf params, (sendUrlCallbackIfNeeded (hf params) params).1,
          (openFileIfNeeded (hf params) params).1⟩ :=
  ⟨_, _, rfl, rfl, rfl, sendUrlCallbackIfNeeded_events_network _ _,
    openFileIfNeeded_events_ui _ _, rfl⟩

/-- Any element of a joined list occurs inside the join. -/
theorem mem_jsJoin_infix (sep : String) (l : List String) (x : String)
    (hx : x ∈ l) : x.data <:+: (jsJoin sep l).data := by
  induction l with
  | nil => cases hx
  | cons a rest ih =>
    cases rest with
    | nil =>
      rcases List.mem_singleton.mp hx with rfl
      exact List.infix_rfl
    | cons b r =>
      rcases List.mem_cons.mp hx with rfl | hmem
      · refine ⟨[], (sep ++ jsJoin sep (b :: r)).data, ?_⟩
        simp [jsJoin, String.data_append]
      · refine (ih hmem).trans ⟨(a ++ sep).data, [], ?_⟩
        simp [jsJoin, String.data_append]

/-- C7. A call whose parameters fail schema validation never reaches the
pipeline (no handler run, no events, no callback), and instead yields the
single consolidated notice in which every field error appears as
"(path joined by dots): (message)". -/
theorem parse_failure_notice_and_no_handler (hf : AnyParams → AnyHandlerResult)
    (errors : List ZodIssue) :
    (∀ res events,
      processIncomingCall hf (Except.error errors) ≠
        CallOutcome.handled res events) ∧
    processIncomingCall hf (Except.error errors) =
      CallOutcome.parseFailed (handleParseErrorMessage errors) ∧
    (∀ e ∈ errors,
      (jsJoin "." e.path ++ ": " ++ e.message).data <:+:
        (handleParseErrorMessage errors).data) := by
  refine ⟨?_, rfl, ?_⟩
  · intro res events hcontra
    simp [processIncomingCall] at hcontra
  · intro e he
    have h1 : (zodIssueLine e).data <:+: (handleParseErrorMessage errors).data :=
      mem_jsJoin_infix "\n" _ _
        (List.mem_cons_of_mem _ (List.mem_map_of_mem _ he))
    refine List.IsInfix.trans ⟨("- " : String).data, [], ?_⟩ h1
    simp [zodIssueLine, String.data_append]

/-- C10. Front-matter extraction is lossless — the extracted front matter
concatenated with the body is the original content — and the front matter
is empty exactly when the content contains no front matter. -/
theorem extract_note_content_parts_lossless (s : List Char) :
    (extractNoteContentParts s).1 ++ (extractNoteContentParts s).2 = s ∧
    ((extractNoteContentParts s).1 = [] ↔ containsFrontMatter s = false) := by
  by_cases h : containsFrontMatter s = true
  · have hparts := h
    unfold containsFrontMatter at hparts
    obtain ⟨hpre, hsome⟩ := Bool.and_eq_true_iff.mp hparts
    obtain ⟨i, hi⟩ := Option.isSome_iff_exists.mp hsome
    have hne : s ≠ [] := by
      intro hnil
      subst hnil
      exact absurd hpre (by decide)
    unfold extractNoteContentParts
    rw [hi, if_pos h]
    dsimp only
    refine ⟨List.take_append_drop _ s, ?_⟩
    rw [h]
    constructor
    · intro htake
      rcases List.take_eq_nil_iff.mp htake with h0 | hnil
      · omega
      · exact absurd hnil hne
    · intro hfalse
      exact Bool.noConfusion hfalse
  · have hf : containsFrontMatter s = false := Bool.eq_false_iff.mpr h
    unfold extractNoteContentParts
    rw [if_neg h]
    simp [hf]

end ActionsURI
